import Mathlib

/-!
Shallow embedding of the device-communication core of the
daring-health-bridge repository: the payload decoders and command
encoders of src/utils/dataParser.ts and src/utils/bluetoothCommands.ts
(src/unnamed/part_005), the connection context of
src/context/BluetoothContext.tsx and its prototype variant
(src/unnamed/part_003), and the per-capability measurement controller of
src/hooks/useBluetoothMeasurement.ts.

Buffers are lists of natural numbers (the bytes of a JS DataView, each
below 256 in a real buffer). A DataView accessor that would throw a
RangeError on an out-of-bounds read is modelled as an Option-valued read
returning none; a JS function without a try/catch that performs such a
read is therefore Option-valued, with none standing for a thrown
exception.
-/

namespace DaringHealthBridge

/-- Model of DataView.getUint8: reads one byte, none when out of bounds. -/
def getUint8? (buf : List Nat) (i : Nat) : Option Nat := buf[i]?

/-- Model of DataView.getUint16 with littleEndian=true: reads two bytes
at i and i+1, none when out of bounds. -/
def getUint16le? (buf : List Nat) (i : Nat) : Option Nat :=
  match buf[i]?, buf[(i + 1)]? with
  | some lo, some hi => some (lo + 256 * hi)
  | _, _ => none

/-- Tri-state completion status shared by the ring payload decoders. -/
inductive MeasureStatus
  | measuring
  | completed
  | error
deriving DecidableEq, Repr

/-- Status-byte decoding shared by parseHrvData, parseStressData,
parseTemperatureData and parseBloodOxygenData: the switch mapping
0x00 to measuring, 0x01 to completed, and any other byte to error. -/
def statusOfByte (b : Nat) : MeasureStatus :=
  if b = 0 then .measuring else if b = 1 then .completed else .error

/-! ## HRV decoder (src/unnamed/part_005, parseHrvData, lines 427-487) -/

/-- Result record of parseHrvData. -/
structure HrvResult where
  value : Nat
  status : MeasureStatus
deriving DecidableEq, Repr

/-- Body of parseHrvData, i.e. the code inside the try block:
length 1 reads the single byte as a status; length at least 3 reads
byte 0 as status and bytes 1-2 as little-endian value; length exactly 2
reads bytes 0-1 as little-endian value with status completed; any other
length (only 0) falls back to value 0, status measuring. -/
def parseHrvDataBody (buf : List Nat) : Option HrvResult :=
  if buf.length = 1 then
    (getUint8? buf 0).map fun statusByte =>
      ⟨0, if statusByte = 1 then .completed else .measuring⟩
  else if 3 ≤ buf.length then
    match getUint8? buf 0, getUint16le? buf 1 with
    | some statusByte, some value => some ⟨value, statusOfByte statusByte⟩
    | _, _ => none
  else if 2 ≤ buf.length then
    (getUint16le? buf 0).map fun value => ⟨value, .completed⟩
  else
    some ⟨0, .measuring⟩

/-- parseHrvData with its catch branch, which converts any exception in
the body into value 0, status error. -/
def parseHrvData (buf : List Nat) : HrvResult :=
  (parseHrvDataBody buf).getD ⟨0, .error⟩

/-- Modelled from the claim text for C2: the ordered case analysis the
spec ascribes to the HRV decoder, written out independently so that the
code-derived parseHrvData can be compared against it. -/
def hrvClaimedLayout (buf : List Nat) : HrvResult :=
  if buf.length = 1 then
    ⟨0, if buf.headD 0 = 1 then .completed else .measuring⟩
  else if 3 ≤ buf.length then
    ⟨buf.getD 1 0 + 256 * buf.getD 2 0, statusOfByte (buf.headD 0)⟩
  else if buf.length = 2 then
    ⟨buf.getD 0 0 + 256 * buf.getD 1 0, .completed⟩
  else
    ⟨0, .measuring⟩

/-! ## Stress decoder (src/unnamed/part_005, parseStressData, lines 549-583) -/

/-- Stress level bands. -/
inductive StressLevel
  | low
  | medium
  | high
deriving DecidableEq, Repr

/-- Level derivation inside parseStressData: below 30 low, below 70
medium, otherwise high. The copy in src/unnamed/part_006 and
parseStressScore in src/lib/bluetooth-service.ts use the same bands. -/
def stressLevelOfScore (score : Nat) : StressLevel :=
  if score < 30 then .low else if score < 70 then .medium else .high

/-- Result record of parseStressData. -/
structure StressResult where
  score : Nat
  level : StressLevel
  status : MeasureStatus
deriving DecidableEq, Repr

/-- parseStressData: byte 0 is the status byte, byte 1 the score, the
level is derived from the score. Reads are unguarded, so a buffer
shorter than 2 bytes throws (none). -/
def parseStressData (buf : List Nat) : Option StressResult :=
  match getUint8? buf 0, getUint8? buf 1 with
  | some statusByte, some score =>
      some ⟨score, stressLevelOfScore score, statusOfByte statusByte⟩
  | _, _ => none

/-! ## Blood-oxygen decoder (src/unnamed/part_005, parseBloodOxygenData,
lines 623-646) -/

/-- Result record of parseBloodOxygenData. -/
structure BloodOxygenResult where
  percentage : Nat
  status : MeasureStatus
deriving DecidableEq, Repr

/-- parseBloodOxygenData: byte 0 is the status byte, byte 1 the oxygen
percentage. Reads are unguarded. -/
def parseBloodOxygenData (buf : List Nat) : Option BloodOxygenResult :=
  match getUint8? buf 0, getUint8? buf 1 with
  | some statusByte, some percentage =>
      some ⟨percentage, statusOfByte statusByte⟩
  | _, _ => none

/-! ## Heart-rate decoder (src/unnamed/part_005, parseHeartRateData,
lines 381-419) -/

/-- Result record of parseHeartRateData; contactDetected is undefined
(none) when flag bit 1 is clear, energyExpended is undefined when flag
bit 3 is clear. -/
structure HeartRateResult where
  heartRate : Nat
  contactDetected : Option Bool
  energyExpended : Option Nat
deriving DecidableEq, Repr

/-- parseHeartRateData: byte 0 holds the flags; bit 0 selects an 8-bit
value at index 1 or a 16-bit little-endian value at indices 1-2; bit 1
makes contactDetected present with the value of bit 2; bit 3 makes a
16-bit little-endian energyExpended follow the heart-rate value. Reads
are unguarded. -/
def parseHeartRateData (buf : List Nat) : Option HeartRateResult :=
  match getUint8? buf 0 with
  | none => none
  | some flags =>
    let format := flags &&& 0x01
    let contactBit := flags &&& 0x02
    let contactDetected : Option Bool :=
      if contactBit ≠ 0 then some ((flags &&& 0x04) != 0) else none
    let energyPresent := flags &&& 0x08
    let hrRead : Option (Nat × Nat) :=
      if format = 0 then (getUint8? buf 1).map fun hr => (hr, 2)
      else (getUint16le? buf 1).map fun hr => (hr, 3)
    match hrRead with
    | none => none
    | some (heartRate, nextByteIndex) =>
      if energyPresent ≠ 0 then
        (getUint16le? buf nextByteIndex).map fun e =>
          ⟨heartRate, contactDetected, some e⟩
      else
        some ⟨heartRate, contactDetected, none⟩

/-! ## Command encoder (src/unnamed/part_005, bluetoothCommands utilities,
lines 280-369; opcodes from src/constants/BluetoothServices.ts in
src/unnamed/part_002) -/

/-- COMMAND_CODES.SYNC_TIME_NOW from the constants catalog. -/
def SYNC_TIME_NOW : List Nat := [0x05, 0x01]

/-- createTimeBuffer, parameterized by the calendar fields that the JS
code extracts from new Date(): the 9-byte layout
[opcode, opcode, year low, year high, month, day, hour, minute, second].
The year bytes use the explicit masks of the source (year & 0xFF and
(year >> 8) & 0xFF); the remaining fields are wrapped mod 256 because
storing into a Uint8Array truncates every entry to an unsigned byte. -/
def createTimeBuffer (year month day hour minute second : Nat) : List Nat :=
  [SYNC_TIME_NOW.getD 0 0,
   SYNC_TIME_NOW.getD 1 0,
   year &&& 0xFF,
   (year >>> 8) &&& 0xFF,
   month % 256,
   day % 256,
   hour % 256,
   minute % 256,
   second % 256]

/-- Modelled from the spec: decoding the 9-byte time-sync layout back
into the calendar fields, with the year read little-endian from bytes
2-3. The repository has no decoder for this buffer; the spec defines the
round-trip by this layout reading. -/
def decodeTimeLayout (buf : List Nat) :
    Option (Nat × Nat × Nat × Nat × Nat × Nat) :=
  match buf with
  | [_, _, yearLo, yearHi, month, day, hour, minute, second] =>
      some (yearLo + 256 * yearHi, month, day, hour, minute, second)
  | _ => none

/-! ## Connection context (src/context/BluetoothContext.tsx and the
prototype variant src/unnamed/part_003) -/

/-- Observable state of the Bluetooth context provider: the React state
cells that the claims mention. dataFetchStatus and the set of discovered
devices are omitted as irrelevant to the claims. -/
structure CtxState where
  isConnected : Bool
  isConnecting : Bool
  hasDevice : Bool
  hasServer : Bool
  batteryLevel : Option Nat
  lastSyncSet : Bool
deriving DecidableEq, Repr

/-- Outcome of a connect call. The code only ever produces ok (the try
body completes) or failed (the catch branch runs); alreadyConnecting and
alreadyConnected are the guard errors named by the spec and are included
so that their absence is statable. -/
inductive ConnectOutcome
  | ok
  | failed
  | alreadyConnecting
  | alreadyConnected
deriving DecidableEq, Repr

/-- connectToDevice of src/context/BluetoothContext.tsx (lines 89-122).
gattAvailable models whether deviceToConnect.gatt is present (the
optional-chaining call returns undefined otherwise and the throw on
!server runs), connectOk whether gatt.connect() succeeds. The returned
Bool records whether a GATT connect attempt was started. The function
consults no session state before connecting; setIsConnecting(true) runs
first and the finally block clears it on every path. The deferred
syncData timeout and the disconnect listener are outside this state. -/
def connectToDevice (st : CtxState) (gattAvailable connectOk : Bool) :
    CtxState × ConnectOutcome × Bool :=
  if gattAvailable then
    if connectOk then
      ({ st with hasDevice := true, isConnected := true,
                 isConnecting := false }, .ok, true)
    else
      ({ st with isConnecting := false }, .failed, true)
  else
    ({ st with isConnecting := false }, .failed, false)

/-- connectToDevice of the prototype context src/unnamed/part_003
(lines 126-178). On success it stores the server, marks connected,
updates the last-sync time and reads the battery characteristic; a
failed battery read is caught and leaves batteryLevel null (none). The
catch branch resets device, server and isConnected. batteryRead carries
the battery characteristic read result, none meaning the read failed. -/
def connectToDeviceProto (st : CtxState) (gattAvailable connectOk : Bool)
    (batteryRead : Option Nat) : CtxState × ConnectOutcome × Bool :=
  if gattAvailable then
    if connectOk then
      ({ st with hasDevice := true, hasServer := true, isConnected := true,
                 lastSyncSet := true, batteryLevel := batteryRead,
                 isConnecting := false }, .ok, true)
    else
      ({ st with hasDevice := false, hasServer := false, isConnected := false,
                 isConnecting := false }, .failed, true)
  else
    ({ st with hasDevice := false, hasServer := false, isConnected := false,
               isConnecting := false }, .failed, false)

/-- Outcome of a syncData call. -/
inductive SyncOutcome
  | success
  | noDevice
deriving DecidableEq, Repr

/-- syncData of src/context/BluetoothContext.tsx (lines 139-182). After
the connected guard it sets the last-sync time, calls
measurement.syncTime() (which catches internally and returns a Bool, so
syncTimeOk cannot abort the sync), then reads the battery
characteristic; on a failed read (batteryRead = none) the catch branch
substitutes Math.floor(Math.random() * 41) + 60, modelled by the random
draw r with r ≤ 40. The five simulateDataSync calls only dispatch
window events and cannot throw, so the outer catch is unreachable and
the call completes with success. -/
def syncData (st : CtxState) (gattConnected _syncTimeOk : Bool)
    (batteryRead : Option Nat) (r : Nat) : CtxState × SyncOutcome :=
  if st.hasDevice ∧ gattConnected then
    let newBattery : Option Nat :=
      match batteryRead with
      | some b => some b
      | none => some (60 + r)
    ({ st with lastSyncSet := true, batteryLevel := newBattery }, .success)
  else
    (st, .noDevice)

/-! ## Measurement controller (src/hooks/useBluetoothMeasurement.ts).
The four start functions (heart rate lines 91-150, HRV 194-253, stress
297-357, blood oxygen 401-460) are verbatim copies of one another modulo
service, characteristic and opcode constants, as are the four stop
functions (155-189, 258-292, 362-396, 465-499); the models below
describe the per-capability state and transitions common to all four. -/

/-- Per-capability controller state: the is-measuring flag and whether a
notification characteristic is stored (subscription armed with its event
listener). -/
structure MeasState where
  measuring : Bool
  notifChar : Bool
deriving DecidableEq, Repr, Fintype

/-- Initial controller state. -/
def mInit : MeasState := ⟨false, false⟩

/-- Disposition of the transport during a start call: which awaited step
fails first, or ok when every step succeeds. The steps in source order:
getPrimaryService for the measurement service, getCharacteristic,
startNotifications, getPrimaryService for the control service,
getCharacteristic for the control characteristic, writeValue of the
start opcode. -/
inductive StartStep
  | serviceFail
  | charFail
  | subscribeFail
  | ctlServiceFail
  | ctlCharFail
  | writeFail
  | ok
deriving DecidableEq, Repr, Fintype

/-- Start function of the measurement hook. The guard returns false when
the device is not connected. The notification characteristic is stored
(and the listener added) right after startNotifications succeeds, so the
three later failures leave it stored; the is-measuring flag is assigned
only after the final writeValue, and the catch branch performs no state
update. -/
def startMeasurementHook (connected : Bool) (st : MeasState) (o : StartStep) :
    MeasState × Bool :=
  if connected then
    match o with
    | .serviceFail | .charFail | .subscribeFail => (st, false)
    | .ctlServiceFail | .ctlCharFail | .writeFail =>
        ({ st with notifChar := true }, false)
    | .ok => ({ st with notifChar := true, measuring := true }, true)
  else
    (st, false)

/-- Disposition of the transport during a start call in the prototype
context: the heartRate branch resolves the service, then the control
characteristic, then writes the start byte. -/
inductive ProtoStartStep
  | serviceFail
  | charFail
  | writeFail
  | ok
deriving DecidableEq, Repr, Fintype

/-- startMeasurement of the prototype context src/unnamed/part_003
(lines 237-280). The connected guard returns with the flag untouched.
On a connected session the flag is set true eagerly, before any
transport step; the heartRate branch then resolves the service and
characteristic and writes the start byte, resetting the flag to false in
its catch on any failure, and the other capability branches (hrv,
stress, bloodOxygen) reset it to false immediately as unimplemented.
This variant arms no notification subscription, so notifChar is never
touched; only the final flag value is observable here, the eager
transient true being invisible in a post-state model. -/
def startMeasurementProto (connected : Bool) (st : MeasState) (isHeartRate : Bool)
    (o : ProtoStartStep) : MeasState :=
  if connected then
    if isHeartRate then
      match o with
      | .ok => { st with measuring := true }
      | _ => { st with measuring := false }
    else
      { st with measuring := false }
  else
    st

/-- Disposition of the transport during a stop call: the control-service
resolution, control-characteristic resolution and stop-opcode writeValue
precede the conditional stopNotifications. -/
inductive StopStep
  | ctlServiceFail
  | ctlCharFail
  | writeFail
  | unsubFail
  | ok
deriving DecidableEq, Repr, Fintype

/-- Stop function of the measurement hook. The stop opcode is written
first; stopNotifications runs only when a characteristic is stored; the
is-measuring flag is assigned false only after those steps, and the
catch branch performs no state update, so any transport failure leaves
the flag at its previous value. -/
def stopMeasurementHook (connected : Bool) (st : MeasState) (o : StopStep) :
    MeasState × Bool :=
  if connected then
    match o with
    | .ctlServiceFail | .ctlCharFail | .writeFail => (st, false)
    | .unsubFail =>
        if st.notifChar then (st, false)
        else ({ st with measuring := false }, true)
    | .ok =>
        if st.notifChar then ({ st with measuring := false, notifChar := false }, true)
        else ({ st with measuring := false }, true)
  else
    (st, false)

/-- stopMeasurement of the prototype context src/unnamed/part_003
(lines 283-326). The connected guard returns without touching the flag;
on a connected session the heartRate branch clears the flag in a finally
block whether or not the write succeeds, the other capability branches
clear it directly, and the outer catch clears it as well, so the flag is
false on every connected path. writeOk models the opcode write. -/
def stopMeasurementProto (connected : Bool) (st : MeasState) (_writeOk : Bool) :
    MeasState :=
  if connected then
    { st with measuring := false }
  else
    st

/-! ## Notification handlers (src/hooks/useBluetoothMeasurement.ts,
HRV lines 215-236, stress 318-340, blood oxygen 422-443). Each listener
decodes the notification bytes and dispatches a healthDataUpdate window
event only when the decoded status is completed; the model returns the
dispatched payload, none when nothing is dispatched. The timestamp and
isReal fields of the payload are constants and omitted. A decoder that
throws (none) propagates out of the listener, so nothing is dispatched
in that case either. -/

/-- HRV listener: dispatches the decoded value when status is completed. -/
def hrvNotifyHandler (buf : List Nat) : Option Nat :=
  if (parseHrvData buf).status = .completed then some (parseHrvData buf).value
  else none

/-- Stress listener: dispatches score and level when status is completed. -/
def stressNotifyHandler (buf : List Nat) : Option (Nat × StressLevel) :=
  match parseStressData buf with
  | some r => if r.status = .completed then some (r.score, r.level) else none
  | none => none

/-- Blood-oxygen listener: dispatches the percentage when status is
completed. -/
def bloodOxygenNotifyHandler (buf : List Nat) : Option Nat :=
  match parseBloodOxygenData buf with
  | some r => if r.status = .completed then some r.percentage else none
  | none => none

/-! ## Theorems -/

/-- C1: HRV decode is total: for every input buffer, of any byte length,
the body of parseHrvData returns a result without throwing (so the catch
branch is unreachable), and the returned status is one of measuring,
completed, or error. -/
theorem hrv_decode_total (buf : List Nat) :
    (parseHrvDataBody buf).isSome = true ∧
    ((parseHrvData buf).status = MeasureStatus.measuring ∨
      (parseHrvData buf).status = MeasureStatus.completed ∨
      (parseHrvData buf).status = MeasureStatus.error) := by
  constructor
  · rcases buf with _ | ⟨a, _ | ⟨b, _ | ⟨c, rest⟩⟩⟩
    · simp [parseHrvDataBody]
    · simp [parseHrvDataBody, getUint8?]
    · simp [parseHrvDataBody, getUint16le?]
    · have h1 : (a :: b :: c :: rest).length ≠ 1 := by
        simp only [List.length_cons]; omega
      have h3 : 3 ≤ (a :: b :: c :: rest).length := by
        simp only [List.length_cons]; omega
      simp [parseHrvDataBody, h1, h3, getUint8?, getUint16le?]
  · cases h : (parseHrvData buf).status <;> simp

/-- C2: parseHrvData applies the ordered case analysis of the spec:
exactly 1 byte gives value 0 and status completed when that byte is 1,
measuring otherwise; 3 or more bytes give the status decoded from byte 0
and the little-endian 16-bit value at bytes 1-2; exactly 2 bytes give
the little-endian value at bytes 0-1 with status completed; any other
length gives value 0 and status measuring. -/
theorem hrv_decode_matches_claimed_layout (buf : List Nat) :
    parseHrvData buf = hrvClaimedLayout buf := by
  rcases buf with _ | ⟨a, _ | ⟨b, _ | ⟨c, rest⟩⟩⟩
  · simp [parseHrvData, parseHrvDataBody, hrvClaimedLayout]
  · simp [parseHrvData, parseHrvDataBody, hrvClaimedLayout, getUint8?]
  · simp [parseHrvData, parseHrvDataBody, hrvClaimedLayout, getUint16le?]
  · have h1 : (a :: b :: c :: rest).length ≠ 1 := by
      simp only [List.length_cons]; omega
    have h3 : 3 ≤ (a :: b :: c :: rest).length := by
      simp only [List.length_cons]; omega
    simp [parseHrvData, parseHrvDataBody, hrvClaimedLayout, h1, h3,
      getUint8?, getUint16le?]

/-- C3: the stress score-to-level mapping is a pure step function:
scores 0-29 map to low, 30-69 to medium, 70 and above to high, with the
boundary scores 29, 30, 69, 70 mapping to low, medium, medium, high,
and the stress notification bytes [0x01, 0x4B] decode to status
completed, score 75, level high. -/
theorem stress_level_step_function :
    (∀ score : Nat, stressLevelOfScore score =
        if score ≤ 29 then StressLevel.low
        else if score ≤ 69 then StressLevel.medium
        else StressLevel.high) ∧
    stressLevelOfScore 29 = StressLevel.low ∧
    stressLevelOfScore 30 = StressLevel.medium ∧
    stressLevelOfScore 69 = StressLevel.medium ∧
    stressLevelOfScore 70 = StressLevel.high ∧
    parseStressData [0x01, 0x4B] =
      some ⟨75, StressLevel.high, MeasureStatus.completed⟩ := by
  refine ⟨fun score => ?_, by decide, by decide, by decide, by decide, by decide⟩
  by_cases h1 : score < 30
  · have h2 : score ≤ 29 := by omega
    simp [stressLevelOfScore, h1, h2]
  · have h2 : ¬ score ≤ 29 := by omega
    by_cases h3 : score < 70
    · have h4 : score ≤ 69 := by omega
      simp [stressLevelOfScore, h1, h2, h3, h4]
    · have h4 : ¬ score ≤ 69 := by omega
      simp [stressLevelOfScore, h1, h2, h3, h4]

/-- C4: parseHeartRateData reads byte 0 as flags; with flag bit 0 clear
the heart rate is the single byte at index 1, otherwise the
little-endian 16-bit value at indices 1-2; contactDetected is present
exactly when flag bit 1 is set and then carries flag bit 2; with flag
bit 3 set, energyExpended is the little-endian 16-bit value immediately
after the heart-rate value; and the bytes [0x00, 0x48] decode to heart
rate 72 with contactDetected undefined. -/
theorem heart_rate_layout :
    (∀ (f b1 : Nat) (rest : List Nat), f &&& 1 = 0 → f &&& 8 = 0 →
        parseHeartRateData (f :: b1 :: rest) =
          some ⟨b1,
            if f &&& 2 ≠ 0 then some ((f &&& 4) != 0) else none, none⟩) ∧
    (∀ (f b1 b2 : Nat) (rest : List Nat), f &&& 1 ≠ 0 → f &&& 8 = 0 →
        parseHeartRateData (f :: b1 :: b2 :: rest) =
          some ⟨b1 + 256 * b2,
            if f &&& 2 ≠ 0 then some ((f &&& 4) != 0) else none, none⟩) ∧
    (∀ (f b1 b2 b3 : Nat) (rest : List Nat), f &&& 1 = 0 → f &&& 8 ≠ 0 →
        parseHeartRateData (f :: b1 :: b2 :: b3 :: rest) =
          some ⟨b1,
            if f &&& 2 ≠ 0 then some ((f &&& 4) != 0) else none,
            some (b2 + 256 * b3)⟩) ∧
    (∀ (f b1 b2 b3 b4 : Nat) (rest : List Nat), f &&& 1 ≠ 0 → f &&& 8 ≠ 0 →
        parseHeartRateData (f :: b1 :: b2 :: b3 :: b4 :: rest) =
          some ⟨b1 + 256 * b2,
            if f &&& 2 ≠ 0 then some ((f &&& 4) != 0) else none,
            some (b3 + 256 * b4)⟩) ∧
    parseHeartRateData [0x00, 0x48] = some ⟨72, none, none⟩ := by
  refine ⟨?_, ?_, ?_, ?_, by decide⟩
  · intro f b1 rest h1 h8
    simp [parseHeartRateData, getUint8?, getUint16le?, h1, h8]
  · intro f b1 b2 rest h1 h8
    have h1m : f % 2 ≠ 0 := by rwa [Nat.and_one_is_mod] at h1
    simp [parseHeartRateData, getUint8?, getUint16le?, h1m, h8]
  · intro f b1 b2 b3 rest h1 h8
    simp [parseHeartRateData, getUint8?, getUint16le?, h1, h8]
  · intro f b1 b2 b3 b4 rest h1 h8
    have h1m : f % 2 ≠ 0 := by rwa [Nat.and_one_is_mod] at h1
    simp [parseHeartRateData, getUint8?, getUint16le?, h1m, h8]

/-- C4 witness: the flags byte 0x0E (bits 1, 2 and 3 set) with an 8-bit
heart rate of 72 and energy bytes 0x10 0x01 decodes to heart rate 72,
contact detected, energy 272. -/
theorem heart_rate_layout_witness :
    parseHeartRateData [14, 72, 16, 1] = some ⟨72, some true, some 272⟩ := by
  have h := heart_rate_layout.2.2.1 14 72 16 1 [] (by decide) (by decide)
  simpa using h

/-- C5: for every calendar time whose year fits in 16 bits, the
time-sync encoder produces exactly the 9-byte buffer
[0x05, 0x01, year low, year high, month, day, hour, minute, second]
with the year split little-endian, and decoding that layout reproduces
the calendar fields exactly. -/
theorem time_sync_round_trip (year month day hour minute second : Nat)
    (hy : year < 65536) (hm : month ≤ 12) (hd : day ≤ 31) (hh : hour ≤ 23)
    (hmi : minute ≤ 59) (hs : second ≤ 59) :
    createTimeBuffer year month day hour minute second =
      [0x05, 0x01, year % 256, year / 256, month, day, hour, minute, second] ∧
    (createTimeBuffer year month day hour minute second).length = 9 ∧
    decodeTimeLayout (createTimeBuffer year month day hour minute second) =
      some (year, month, day, hour, minute, second) := by
  have hlo : year &&& 0xFF = year % 256 := by
    have h := Nat.and_pow_two_sub_one_eq_mod year 8
    norm_num at h
    exact h
  have hhi : (year >>> 8) &&& 0xFF = year / 256 := by
    have h := Nat.and_pow_two_sub_one_eq_mod (year >>> 8) 8
    norm_num at h
    rw [h, Nat.shiftRight_eq_div_pow]
    norm_num
    omega
  have he : createTimeBuffer year month day hour minute second =
      [0x05, 0x01, year % 256, year / 256, month, day, hour, minute, second] := by
    simp [createTimeBuffer, SYNC_TIME_NOW, hlo, hhi,
      Nat.mod_eq_of_lt (show month < 256 by omega),
      Nat.mod_eq_of_lt (show day < 256 by omega),
      Nat.mod_eq_of_lt (show hour < 256 by omega),
      Nat.mod_eq_of_lt (show minute < 256 by omega),
      Nat.mod_eq_of_lt (show second < 256 by omega)]
  refine ⟨he, by rw [he]; rfl, ?_⟩
  rw [he]
  simp [decodeTimeLayout]
  omega

/-- C5 witness: the buffer for 2025-10-11 23:59:58 decodes back to its
calendar fields. -/
theorem time_sync_round_trip_witness :
    decodeTimeLayout (createTimeBuffer 2025 10 11 23 59 58) =
      some (2025, 10, 11, 23, 59, 58) :=
  (time_sync_round_trip 2025 10 11 23 59 58 (by decide) (by decide) (by decide)
    (by decide) (by decide) (by decide)).2.2

/-- C6 counterexample: a connect call made while the session is already
connected (isConnected = true, a device present) does not fail with
AlreadyConnected: it starts a new GATT connect attempt and completes
with ok. -/
theorem connect_guard_counterexample :
    (connectToDevice ⟨true, false, true, true, some 80, true⟩ true true).2.1 =
        ConnectOutcome.ok ∧
    (connectToDevice ⟨true, false, true, true, some 80, true⟩ true true).2.1 ≠
        ConnectOutcome.alreadyConnected ∧
    (connectToDevice ⟨true, false, true, true, some 80, true⟩ true true).2.2 =
        true := by
  decide

/-- C6 amended: neither connectToDevice implementation consults the
session state before connecting: from every state, including connecting
and connected, the call never fails with AlreadyConnecting or
AlreadyConnected, and a GATT connect attempt is started exactly when the
device exposes a gatt handle. -/
theorem connect_never_guards (st : CtxState) (g c : Bool) (br : Option Nat) :
    (connectToDevice st g c).2.1 ≠ ConnectOutcome.alreadyConnecting ∧
    (connectToDevice st g c).2.1 ≠ ConnectOutcome.alreadyConnected ∧
    (connectToDevice st g c).2.2 = g ∧
    (connectToDeviceProto st g c br).2.1 ≠ ConnectOutcome.alreadyConnecting ∧
    (connectToDeviceProto st g c br).2.1 ≠ ConnectOutcome.alreadyConnected ∧
    (connectToDeviceProto st g c br).2.2 = g := by
  unfold connectToDevice connectToDeviceProto
  cases g <;> cases c <;> simp

/-- C7 counterexample: with a connected session and a failing battery
characteristic read, syncData does not leave the battery value absent:
with random draw 0 it sets batteryLevel to some 60 (a fabricated
simulated value), while still updating the last-sync time and completing
with success. -/
theorem sync_battery_counterexample :
    (syncData ⟨true, false, true, true, none, false⟩ true true none 0).1.batteryLevel =
        some 60 ∧
    (syncData ⟨true, false, true, true, none, false⟩ true true none 0).1.batteryLevel ≠
        none ∧
    (syncData ⟨true, false, true, true, none, false⟩ true true none 0).1.lastSyncSet =
        true ∧
    (syncData ⟨true, false, true, true, none, false⟩ true true none 0).2 =
        SyncOutcome.success := by
  decide

/-- C7 amended: when sync is invoked on a connected session and the
battery characteristic read fails, the sync is not aborted: syncData
itself substitutes a simulated battery value 60 + r with r drawn from
0..40 (so between 60 and 100), still updates the last-sync time, and
completes with success. -/
theorem sync_battery_failure_fallback (st : CtxState) (stOk : Bool) (r : Nat)
    (hdev : st.hasDevice = true) (hr : r ≤ 40) :
    (syncData st true stOk none r).1.batteryLevel = some (60 + r) ∧
    60 ≤ 60 + r ∧ 60 + r ≤ 100 ∧
    (syncData st true stOk none r).1.lastSyncSet = true ∧
    (syncData st true stOk none r).2 = SyncOutcome.success := by
  unfold syncData
  simp [hdev]
  omega

/-- C7 amended witness: at the maximal random draw the substituted
battery value is 100. -/
theorem sync_battery_failure_fallback_witness :
    (syncData ⟨true, false, true, true, none, false⟩ true true none 40).1.batteryLevel =
      some 100 := by
  have h := sync_battery_failure_fallback ⟨true, false, true, true, none, false⟩
    true 40 rfl (by decide)
  simpa using h.1

/-- C8 counterexample: when the start-command write fails after the
subscription was armed, the stored notification characteristic and its
listener are not cleaned up: from the initial state the failed call
leaves notifChar true while the flag stays false (a leaked half-armed
subscription), and a second call from that state produces a different
post-state than a first call from the initial state, so the second call
does not behave identically at the subscription level. -/
theorem start_leak_counterexample :
    (startMeasurementHook true mInit StartStep.writeFail).1.notifChar = true ∧
    (startMeasurementHook true mInit StartStep.writeFail).1.measuring = false ∧
    (startMeasurementHook true (startMeasurementHook true mInit StartStep.writeFail).1
        StartStep.serviceFail).1 ≠
      (startMeasurementHook true mInit StartStep.serviceFail).1 := by
  decide

/-- C8 amended: in the measurement hook, start succeeds exactly when the
session is connected and every transport step (service and
characteristic resolution, subscription, control resolution,
start-command write) succeeds; from a non-measuring state the flag
becomes true only on full success and remains false on any failure, and
after a failed first call a second call returns the same result and
flag value as a first call would. But when control resolution or the
start-command write fails after startNotifications succeeded, the armed
subscription and stored characteristic leak (notifChar stays true with
no cleanup), so the second call is identical only in result and flag,
not in subscription state. In the part_003 prototype the flag is set
eagerly before any transport step but reset on every failure path, so
after the call it is true exactly on the fully successful heart-rate
path. -/
theorem start_measurement_flag_and_leak :
    (∀ (c : Bool) (st : MeasState) (o : StartStep),
        (startMeasurementHook c st o).2 = true ↔ (c = true ∧ o = StartStep.ok)) ∧
    (∀ (st : MeasState) (o : StartStep), st.measuring = false →
        (startMeasurementHook true st o).1.measuring = true → o = StartStep.ok) ∧
    (∀ (st : MeasState) (o : StartStep), st.measuring = false →
        o ≠ StartStep.ok → (startMeasurementHook true st o).1.measuring = false) ∧
    (∀ (o oNext : StartStep), o ≠ StartStep.ok →
        (startMeasurementHook true (startMeasurementHook true mInit o).1 oNext).2 =
          (startMeasurementHook true mInit oNext).2 ∧
        (startMeasurementHook true
            (startMeasurementHook true mInit o).1 oNext).1.measuring =
          (startMeasurementHook true mInit oNext).1.measuring) ∧
    (∀ o : StartStep,
        (o = StartStep.ctlServiceFail ∨ o = StartStep.ctlCharFail ∨
          o = StartStep.writeFail) →
        (startMeasurementHook true mInit o).1.notifChar = true ∧
        (startMeasurementHook true mInit o).2 = false) ∧
    (∀ o : StartStep,
        (o = StartStep.serviceFail ∨ o = StartStep.charFail ∨
          o = StartStep.subscribeFail) →
        (startMeasurementHook true mInit o).1.notifChar = false) ∧
    (∀ (st : MeasState) (hr : Bool) (o : ProtoStartStep),
        (startMeasurementProto true st hr o).measuring =
          (hr && decide (o = ProtoStartStep.ok))) := by
  decide

/-- C8 amended witness: a failed start-command write from the initial
state leaves the subscription armed and the call unsuccessful. -/
theorem start_measurement_flag_and_leak_witness :
    (startMeasurementHook true mInit StartStep.writeFail).1.notifChar = true ∧
    (startMeasurementHook true mInit StartStep.writeFail).2 = false :=
  start_measurement_flag_and_leak.2.2.2.2.1 StartStep.writeFail
    (Or.inr (Or.inr rfl))

/-- C9 counterexample: in the measurement hook, a stop call on a
connected measuring session whose stop-command write fails (or whose
unsubscribe fails) leaves the is-measuring flag true: the flag is not
cleared unconditionally. -/
theorem stop_flag_counterexample :
    (stopMeasurementHook true ⟨true, true⟩ StopStep.writeFail).1.measuring = true ∧
    (stopMeasurementHook true ⟨true, true⟩ StopStep.unsubFail).1.measuring = true := by
  decide

/-- C9 amended: in the measurement hook, a stop call on a connected
session clears the is-measuring flag exactly when the call succeeds (the
stop-command write and any needed unsubscribe complete); on failure the
flag keeps its previous value. Only the prototype context variant
(src/unnamed/part_003) clears the flag unconditionally on a connected
session. -/
theorem stop_measurement_flag_conditional :
    (∀ (st : MeasState) (o : StopStep),
        (stopMeasurementHook true st o).1.measuring =
          (if (stopMeasurementHook true st o).2 then false else st.measuring)) ∧
    (∀ (st : MeasState) (w : Bool),
        (stopMeasurementProto true st w).measuring = false) := by
  decide

/-- C10: the HRV, stress and blood-oxygen notification handlers dispatch
a healthDataUpdate event only when the decoded status is completed: any
emitted payload comes from a successful decode whose status is
completed, carrying that decode's fields. -/
theorem notify_handlers_only_completed :
    (∀ (buf : List Nat) (v : Nat), hrvNotifyHandler buf = some v →
        (parseHrvData buf).status = MeasureStatus.completed ∧
        v = (parseHrvData buf).value) ∧
    (∀ (buf : List Nat) (p : Nat × StressLevel), stressNotifyHandler buf = some p →
        ∃ r, parseStressData buf = some r ∧
          r.status = MeasureStatus.completed ∧ p = (r.score, r.level)) ∧
    (∀ (buf : List Nat) (v : Nat), bloodOxygenNotifyHandler buf = some v →
        ∃ r, parseBloodOxygenData buf = some r ∧
          r.status = MeasureStatus.completed ∧ v = r.percentage) := by
  refine ⟨?_, ?_, ?_⟩
  · intro buf v h
    by_cases hc : (parseHrvData buf).status = MeasureStatus.completed
    · simp only [hrvNotifyHandler, hc, if_pos, Option.some.injEq] at h
      exact ⟨hc, h.symm⟩
    · simp [hrvNotifyHandler, hc] at h
  · intro buf p h
    unfold stressNotifyHandler at h
    cases hp : parseStressData buf with
    | none => rw [hp] at h; simp at h
    | some r =>
        rw [hp] at h
        by_cases hc : r.status = MeasureStatus.completed
        · simp only [hc, if_pos, Option.some.injEq] at h
          exact ⟨r, rfl, hc, h.symm⟩
        · simp [hc] at h
  · intro buf v h
    unfold bloodOxygenNotifyHandler at h
    cases hp : parseBloodOxygenData buf with
    | none => rw [hp] at h; simp at h
    | some r =>
        rw [hp] at h
        by_cases hc : r.status = MeasureStatus.completed
        · simp only [hc, if_pos, Option.some.injEq] at h
          exact ⟨r, rfl, hc, h.symm⟩
        · simp [hc] at h

/-- C10 witness: the completed HRV notification [0x01, 0x2A, 0x00] is
dispatched, and the theorem yields that its decoded status is
completed. -/
theorem notify_handlers_only_completed_witness :
    (parseHrvData [1, 42, 0]).status = MeasureStatus.completed :=
  (notify_handlers_only_completed.1 [1, 42, 0] 42 (by decide)).1

end DaringHealthBridge
